import Mathlib

/-!
Verification of the upload-handler policy logic
(`src/lambda-functions/upload-handler/handler.py`).

The handler is embedded shallowly:

* JSON-like Python values are `JVal` (JSON numbers restricted to integers; no
  claim involves fractional sizes).
* Python exceptions are the error channel of `Except PyErr`; the
  `try/except ClientError/except Exception` boundary of `lambda_handler` is
  the final `match` that converts an error into an HTTP 500 envelope.
* External collaborators that the source only calls — `json.loads`, the S3
  presigned-URL signer, and the float rendering used in the size message
  (`str(MAX_FILE_SIZE / (1024 * 1024))`) — enter as function parameters of
  the handler, exactly at the call sites the source uses them.
* Process configuration read from the environment at import time is the
  immutable `Config` record.  `ALLOWED_FILE_TYPES` is a JSON list of strings
  (a Python string compares unequal to every non-string, so membership of a
  non-string request value in that list is `false`, as in Python).
* `datetime.utcnow()` and `uuid.uuid4()` are the `today : Date` and
  `uid : String` parameters, generated fresh per call by the runtime.
-/

/-- A JSON-like Python value, as produced by an API-Gateway event or by
`json.loads`.  Numbers are modelled as integers. -/
inductive JVal where
  | null
  | bool (b : Bool)
  | num (n : Int)
  | str (s : String)
  | arr (xs : List JVal)
  | obj (fields : List (String × JVal))

mutual

/-- Structural equality test for `JVal` (a hand-rolled `DecidableEq`, since
deriving does not handle the nested lists). -/
def JVal.decEq : (a b : JVal) → Decidable (a = b)
  | .null, .null => .isTrue rfl
  | .bool a, .bool b =>
      if h : a = b then .isTrue (h ▸ rfl) else .isFalse (fun hh => h (by cases hh; rfl))
  | .num a, .num b =>
      if h : a = b then .isTrue (h ▸ rfl) else .isFalse (fun hh => h (by cases hh; rfl))
  | .str a, .str b =>
      if h : a = b then .isTrue (h ▸ rfl) else .isFalse (fun hh => h (by cases hh; rfl))
  | .arr xs, .arr ys =>
      match JVal.decEqList xs ys with
      | .isTrue h => .isTrue (h ▸ rfl)
      | .isFalse h => .isFalse (fun hh => h (by cases hh; rfl))
  | .obj fs, .obj gs =>
      match JVal.decEqFields fs gs with
      | .isTrue h => .isTrue (h ▸ rfl)
      | .isFalse h => .isFalse (fun hh => h (by cases hh; rfl))
  | .null, .bool _ => .isFalse (fun h => nomatch h)
  | .null, .num _ => .isFalse (fun h => nomatch h)
  | .null, .str _ => .isFalse (fun h => nomatch h)
  | .null, .arr _ => .isFalse (fun h => nomatch h)
  | .null, .obj _ => .isFalse (fun h => nomatch h)
  | .bool _, .null => .isFalse (fun h => nomatch h)
  | .bool _, .num _ => .isFalse (fun h => nomatch h)
  | .bool _, .str _ => .isFalse (fun h => nomatch h)
  | .bool _, .arr _ => .isFalse (fun h => nomatch h)
  | .bool _, .obj _ => .isFalse (fun h => nomatch h)
  | .num _, .null => .isFalse (fun h => nomatch h)
  | .num _, .bool _ => .isFalse (fun h => nomatch h)
  | .num _, .str _ => .isFalse (fun h => nomatch h)
  | .num _, .arr _ => .isFalse (fun h => nomatch h)
  | .num _, .obj _ => .isFalse (fun h => nomatch h)
  | .str _, .null => .isFalse (fun h => nomatch h)
  | .str _, .bool _ => .isFalse (fun h => nomatch h)
  | .str _, .num _ => .isFalse (fun h => nomatch h)
  | .str _, .arr _ => .isFalse (fun h => nomatch h)
  | .str _, .obj _ => .isFalse (fun h => nomatch h)
  | .arr _, .null => .isFalse (fun h => nomatch h)
  | .arr _, .bool _ => .isFalse (fun h => nomatch h)
  | .arr _, .num _ => .isFalse (fun h => nomatch h)
  | .arr _, .str _ => .isFalse (fun h => nomatch h)
  | .arr _, .obj _ => .isFalse (fun h => nomatch h)
  | .obj _, .null => .isFalse (fun h => nomatch h)
  | .obj _, .bool _ => .isFalse (fun h => nomatch h)
  | .obj _, .num _ => .isFalse (fun h => nomatch h)
  | .obj _, .str _ => .isFalse (fun h => nomatch h)
  | .obj _, .arr _ => .isFalse (fun h => nomatch h)

/-- Equality test for lists of `JVal`. -/
def JVal.decEqList : (xs ys : List JVal) → Decidable (xs = ys)
  | [], [] => .isTrue rfl
  | [], _ :: _ => .isFalse (fun h => nomatch h)
  | _ :: _, [] => .isFalse (fun h => nomatch h)
  | x :: xs, y :: ys =>
      match JVal.decEq x y, JVal.decEqList xs ys with
      | .isTrue h1, .isTrue h2 => .isTrue (by rw [h1, h2])
      | .isFalse h1, _ => .isFalse (fun hh => h1 (by cases hh; rfl))
      | _, .isFalse h2 => .isFalse (fun hh => h2 (by cases hh; rfl))

/-- Equality test for `JVal` object field lists. -/
def JVal.decEqFields : (xs ys : List (String × JVal)) → Decidable (xs = ys)
  | [], [] => .isTrue rfl
  | [], _ :: _ => .isFalse (fun h => nomatch h)
  | _ :: _, [] => .isFalse (fun h => nomatch h)
  | (k, v) :: xs, (l, w) :: ys =>
      if hk : k = l then
        match JVal.decEq v w, JVal.decEqFields xs ys with
        | .isTrue h1, .isTrue h2 => .isTrue (by rw [hk, h1, h2])
        | .isFalse h1, _ => .isFalse (fun hh => h1 (by cases hh; rfl))
        | _, .isFalse h2 => .isFalse (fun hh => h2 (by cases hh; rfl))
      else .isFalse (fun hh => hk (by cases hh; rfl))

end

instance : DecidableEq JVal := JVal.decEq

/-- Python exceptions that the handler's code paths can raise.
`clientError` is `botocore.exceptions.ClientError` (carrying its message);
every other exception kind is only matched by the bare `except Exception`. -/
inductive PyErr where
  | jsonDecodeError
  | typeError
  | keyError
  | attributeError
  | clientError (msg : String)
  | otherError (msg : String)
deriving DecidableEq

/-- The process-wide configuration, read once from the environment
(`UPLOAD_BUCKET_NAME`, `ALLOWED_FILE_TYPES`, `MAX_FILE_SIZE_BYTES`,
`PRESIGNED_URL_EXPIRY`, `KMS_KEY_ID`). -/
structure Config where
  uploadBucket : String
  allowedFileTypes : List String
  maxFileSize : Int
  presignedUrlExpiry : Int
  kmsKeyId : String
deriving DecidableEq

/-- The wire envelope returned by the handler.  The Python code serialises
the body dict with `json.dumps`; the body is kept structured here. -/
structure Response where
  statusCode : Nat
  headers : List (String × String)
  body : JVal
deriving DecidableEq

/-- The arguments `lambda_handler` passes to
`s3_client.generate_presigned_url('put_object', Params=..., ExpiresIn=...)`. -/
structure SignParams where
  bucket : String
  key : String
  contentType : JVal
  serverSideEncryption : String
  sseKmsKeyId : String
  expiresIn : Int
deriving DecidableEq

/-- The two response headers every envelope carries. -/
def stdHeaders : List (String × String) :=
  [("Content-Type", "application/json"), ("Access-Control-Allow-Origin", "*")]

/-- `error_response(status_code, message)` from the source. -/
def error_response (status_code : Nat) (message : String) : Response :=
  { statusCode := status_code
    headers := stdHeaders
    body := JVal.obj [("error", JVal.str message)] }

mutual

/-- Python `repr` of a JSON-like value (used by `str` on lists and dicts).
String escaping inside `repr` of a string is not modelled; no claim renders
a compound or quoted value. -/
def pyRepr : JVal → String
  | .null => "None"
  | .bool true => "True"
  | .bool false => "False"
  | .num n => toString n
  | .str s => "\x27" ++ s ++ "\x27"
  | .arr xs => "[" ++ pyReprList xs ++ "]"
  | .obj fs => "\x7b" ++ pyReprFields fs ++ "\x7d"

/-- Comma-joined `repr`s of list elements. -/
def pyReprList : List JVal → String
  | [] => ""
  | [x] => pyRepr x
  | x :: xs => pyRepr x ++ ", " ++ pyReprList xs

/-- Comma-joined `repr`s of dict entries. -/
def pyReprFields : List (String × JVal) → String
  | [] => ""
  | [(k, v)] => "\x27" ++ k ++ "\x27: " ++ pyRepr v
  | (k, v) :: fs => "\x27" ++ k ++ "\x27: " ++ pyRepr v ++ ", " ++ pyReprFields fs

end

/-- Python `str` of a JSON-like value, as interpolated by an f-string. -/
def pyStr : JVal → String
  | .str s => s
  | v => pyRepr v

/-- Python truthiness of a JSON-like value (`not x` is `!truthy x`). -/
def truthy : JVal → Bool
  | .null => false
  | .bool b => b
  | .num n => decide (n ≠ 0)
  | .str s => decide (s ≠ "")
  | .arr xs => decide (xs ≠ [])
  | .obj fs => decide (fs ≠ [])

/-- First value bound to `k` in an association list (Python dicts, built by
`json.loads` or the runtime, never hold duplicate keys). -/
def fieldsLookup (fs : List (String × JVal)) (k : String) : Option JVal :=
  match fs with
  | [] => none
  | (l, v) :: tl => if l = k then some v else fieldsLookup tl k

/-- Python `d.get(k, default)`: raises `AttributeError` when the receiver is
not a dict. -/
def dictGet (v : JVal) (k : String) (default : JVal) : Except PyErr JVal :=
  match v with
  | .obj fs => .ok ((fieldsLookup fs k).getD default)
  | _ => .error .attributeError

/-- Python `d[k]` on a JSON-like value: dict lookup; a `TypeError` on the
other shapes (string/list indices must be integers; `None`, numbers and
booleans are not subscriptable). -/
def getItem (v : JVal) (k : String) : Except PyErr JVal :=
  match v with
  | .obj fs =>
      match fieldsLookup fs k with
      | some x => .ok x
      | none => .error .keyError
  | _ => .error .typeError

/-- `needle` occurs as a contiguous run inside `hay` (Python substring
containment). -/
def strContainsSub (hay needle : List Char) : Bool :=
  needle.isPrefixOf hay ||
    match hay with
    | [] => false
    | _ :: tl => strContainsSub tl needle

/-- Python `k in v` for a string key `k`: key membership for a dict,
substring for a string, `==`-membership for a list (a Python string is
`==` only to an equal string), `TypeError` otherwise. -/
def pyIn (k : String) (v : JVal) : Except PyErr Bool :=
  match v with
  | .obj fs => .ok (fs.any fun kv => kv.1 == k)
  | .str s => .ok (strContainsSub s.data k.data)
  | .arr xs => .ok (xs.any fun x => x == JVal.str k)
  | _ => .error .typeError

/-- Python `v > m` for an integer `m`: numbers compare; a boolean counts as
`0`/`1`; every other shape raises `TypeError`. -/
def pyGtInt (v : JVal) (m : Int) : Except PyErr Bool :=
  match v with
  | .num n => .ok (decide (m < n))
  | .bool b => .ok (decide (m < (if b then 1 else 0)))
  | _ => .error .typeError

/-- Python slice `l[:k]`, where `k` may be negative (counted from the end,
clamped at the start). -/
def pyTake (l : List Char) (k : Int) : List Char :=
  if 0 ≤ k then l.take k.toNat else l.take (l.length - (-k).toNat)

/-- `os.path.basename` (POSIX): everything after the last `/`. -/
def basenameL (l : List Char) : List Char :=
  (l.reverse.takeWhile (fun c => c ≠ '/')).reverse

/-- The characters `handler.py` replaces: `< > : " / \ | ? *` and NUL. -/
def dangerousChars : List Char :=
  ['<', '>', ':', '\"', '/', '\\', '|', '?', '*', '\x00']

/-- The chained `filename.replace(char, '_')` loop: each dangerous character
becomes an underscore (single-character replacements commute, so the loop is
a single map). -/
def replaceDangerousL (l : List Char) : List Char :=
  l.map fun c => if c ∈ dangerousChars then '_' else c

/-- `os.path.splitext` (POSIX): split at the last dot, provided that dot
comes after the last `/` and some character strictly between the last `/`
and that dot is not itself a dot (so leading dots never start an
extension). -/
def splitextL (l : List Char) : List Char × List Char :=
  let revAfterDot := l.reverse.takeWhile (fun c => c ≠ '.')
  if revAfterDot.length = l.length then (l, [])
  else if '/' ∈ revAfterDot then (l, [])
  else
    let dotIndex := l.length - revAfterDot.length - 1
    let stem := l.take dotIndex
    if (stem.reverse.takeWhile (fun c => c ≠ '/')).all (fun c => c = '.') then (l, [])
    else (stem, l.drop dotIndex)

/-- `sanitize_filename` on character lists: basename, dangerous-character
replacement, then `name[:200 - len(ext)] + ext` whenever the name exceeds
200 characters. -/
def sanitizeL (l : List Char) : List Char :=
  let f := replaceDangerousL (basenameL l)
  if 200 < f.length then
    let ne := splitextL f
    pyTake ne.1 ((200 : Int) - ne.2.length) ++ ne.2
  else f

/-- `sanitize_filename` from the source. -/
def sanitize_filename (s : String) : String :=
  String.mk (sanitizeL s.data)

/-- A calendar date, standing for `datetime.utcnow()`. -/
structure Date where
  year : Nat
  month : Nat
  day : Nat
deriving DecidableEq

/-- Zero-padding to two digits, as `strftime` does for `%m` and `%d`. -/
def pad2 (n : Nat) : String :=
  if n < 10 then "0" ++ toString n else toString n

/-- `strftime('%Y/%m/%d')` (years of real dates are four digits and need no
padding). -/
def formatDate (d : Date) : String :=
  toString d.year ++ "/" ++ pad2 d.month ++ "/" ++ pad2 d.day

/-- The f-string at line 55 of the source:
`f"{datetime.utcnow().strftime('%Y/%m/%d')}/{uuid.uuid4()}-{safe_filename}"`. -/
def build_file_key (today : Date) (uid : String) (safe : String) : String :=
  formatDate today ++ "/" ++ uid ++ "-" ++ safe

/-- `content_type in ALLOWED_FILE_TYPES`: list membership by Python `==`
(a string is `==` only to an equal string, so a non-string request value is
never a member of the configured list of strings). -/
def allowedType (cfg : Config) (v : JVal) : Bool :=
  match v with
  | JVal.str s => decide (s ∈ cfg.allowedFileTypes)
  | _ => false

/-- The body of the `try:` block of `lambda_handler`, with every Python
exception on the error channel.  `loads` is `json.loads`; `sign` is
`s3_client.generate_presigned_url`; `mb` renders
`MAX_FILE_SIZE / (1024 * 1024)` (Python float division and formatting are
external to this model); `today` and `uid` are the fresh
`datetime.utcnow()` and `uuid.uuid4()` of this call. -/
def handlerBody (cfg : Config) (today : Date) (uid : String)
    (loads : String → Except PyErr JVal)
    (sign : SignParams → Except PyErr String)
    (mb : Int → String) (event : JVal) : Except PyErr Response :=
  (pyIn "body" event).bind fun hasBody =>
  (if hasBody then
      (getItem event "body").bind fun b =>
        match b with
        | .str s => loads s
        | _ => Except.ok b
    else Except.ok event).bind fun body =>
  (dictGet body "filename" JVal.null).bind fun filename =>
  (dictGet body "contentType" JVal.null).bind fun content_type =>
  (dictGet body "fileSize" (JVal.num 0)).bind fun file_size =>
  if !truthy filename || !truthy content_type then
    Except.ok (error_response 400 "Missing required fields: filename and contentType")
  else if !allowedType cfg content_type then
    Except.ok (error_response 400 ("File type " ++ pyStr content_type ++ " is not allowed"))
  else
    (pyGtInt file_size cfg.maxFileSize).bind fun oversize =>
    if oversize then
      Except.ok (error_response 400
        ("File size exceeds maximum of " ++ mb cfg.maxFileSize ++ "MB"))
    else
      (match filename with
       | JVal.str s => Except.ok (sanitize_filename s)
       | _ => Except.error PyErr.typeError).bind fun safe_filename =>
      let file_key := build_file_key today uid safe_filename
      (sign { bucket := cfg.uploadBucket
              key := file_key
              contentType := content_type
              serverSideEncryption := "aws:kms"
              sseKmsKeyId := cfg.kmsKeyId
              expiresIn := cfg.presignedUrlExpiry }).bind fun url =>
      Except.ok
        { statusCode := 200
          headers := stdHeaders
          body := JVal.obj
            [("uploadUrl", JVal.str url)
            , ("fileKey", JVal.str file_key)
            , ("expiresIn", JVal.num cfg.presignedUrlExpiry)
            , ("message", JVal.str "Upload URL generated successfully")] }

/-- `lambda_handler`: the `try:` body with its two `except` clauses —
`except ClientError` maps to a 500 with the signing message, the bare
`except Exception` to a 500 with the generic message. -/
def lambda_handler (cfg : Config) (today : Date) (uid : String)
    (loads : String → Except PyErr JVal)
    (sign : SignParams → Except PyErr String)
    (mb : Int → String) (event : JVal) : Response :=
  match handlerBody cfg today uid loads sign mb event with
  | .ok r => r
  | .error (.clientError _) => error_response 500 "Failed to generate upload URL"
  | .error _ => error_response 500 "Internal server error"

/-- A deployment configuration used to evaluate the handler on concrete
requests. -/
def cfg0 : Config :=
  { uploadBucket := "bkt"
    allowedFileTypes := ["application/pdf", "image/png"]
    maxFileSize := 10
    presignedUrlExpiry := 300
    kmsKeyId := "kms1" }

/-- A deployment configuration whose allow-list contains the empty string
(the environment variable `ALLOWED_FILE_TYPES` is any JSON list of
strings). -/
def cfgE : Config :=
  { uploadBucket := "bkt"
    allowedFileTypes := [""]
    maxFileSize := 10
    presignedUrlExpiry := 300
    kmsKeyId := "kms1" }

/-- A concrete invocation date. -/
def d0 : Date := ⟨2026, 10, 12⟩

/-- A concrete random identifier, shaped as `uuid.uuid4()` renders one. -/
def u0 : String := "4b20cd0a-8d56-406e-b812-b8985fa60c01"

/-- A concrete `json.loads` behaviour: parsing fails (as it does on any
string that is not valid JSON). -/
def loads0 : String → Except PyErr JVal := fun _ => Except.error PyErr.jsonDecodeError

/-- A concrete signer that succeeds with a fixed URL. -/
def sign0 : SignParams → Except PyErr String := fun _ => Except.ok "https://signed"

/-- A concrete rendering of `MAX_FILE_SIZE / (1024 * 1024)`. -/
def mb0 : Int → String := fun n => toString n

/-- A structured wire envelope: one of the three status codes the handler
produces, the fixed header pair, and — on a non-200 status — a JSON body
consisting of an `error` field. -/
def isEnvelope (r : Response) : Prop :=
  (r.statusCode = 200 ∨ r.statusCode = 400 ∨ r.statusCode = 500) ∧
  r.headers = stdHeaders ∧
  (r.statusCode ≠ 200 → ∃ msg, r.body = JVal.obj [("error", JVal.str msg)])

theorem except_bind_ok {α β : Type} {x : Except PyErr α} {f : α → Except PyErr β} {r : β}
    (h : x.bind f = Except.ok r) : ∃ a, x = Except.ok a ∧ f a = Except.ok r := by
  cases x with
  | ok a => exact ⟨a, rfl, h⟩
  | error e => exact absurd h (by simp [Except.bind])

theorem splitextL_append (l : List Char) : (splitextL l).1 ++ (splitextL l).2 = l := by
  simp only [splitextL]
  split
  · simp
  · split
    · simp
    · split
      · simp
      · exact List.take_append_drop _ l

theorem mem_of_mem_pyTake {l : List Char} {c : Char} {k : Int}
    (h : c ∈ pyTake l k) : c ∈ l := by
  unfold pyTake at h
  split at h <;> exact List.mem_of_mem_take h

theorem mem_of_mem_sanitizeL {l : List Char} {c : Char} (h : c ∈ sanitizeL l) :
    c ∈ replaceDangerousL (basenameL l) := by
  simp only [sanitizeL] at h
  split at h
  · rcases List.mem_append.mp h with h1 | h2
    · have := mem_of_mem_pyTake h1
      rw [← splitextL_append (replaceDangerousL (basenameL l))]
      exact List.mem_append.mpr (Or.inl this)
    · rw [← splitextL_append (replaceDangerousL (basenameL l))]
      exact List.mem_append.mpr (Or.inr h2)
  · exact h

theorem not_mem_replaceDangerousL {c : Char} (hd : c ∈ dangerousChars) (hu : c ≠ '_')
    (l : List Char) : c ∉ replaceDangerousL l := by
  intro h
  rw [replaceDangerousL, List.mem_map] at h
  obtain ⟨a, _, ha⟩ := h
  by_cases hda : a ∈ dangerousChars
  · rw [if_pos hda] at ha
    exact hu ha.symm
  · rw [if_neg hda] at ha
    exact hda (ha ▸ hd)

theorem not_mem_sanitizeL {c : Char} (hd : c ∈ dangerousChars) (hu : c ≠ '_')
    (l : List Char) : c ∉ sanitizeL l :=
  fun h => not_mem_replaceDangerousL hd hu _ (mem_of_mem_sanitizeL h)

theorem isEnvelope_error_400 (msg : String) : isEnvelope (error_response 400 msg) :=
  ⟨Or.inr (Or.inl rfl), rfl, fun _ => ⟨msg, rfl⟩⟩

theorem isEnvelope_error_500 (msg : String) : isEnvelope (error_response 500 msg) :=
  ⟨Or.inr (Or.inr rfl), rfl, fun _ => ⟨msg, rfl⟩⟩

theorem handlerBody_ok_envelope {cfg : Config} {today : Date} {uid : String}
    {loads : String → Except PyErr JVal} {sign : SignParams → Except PyErr String}
    {mb : Int → String} {event : JVal} {r : Response}
    (h : handlerBody cfg today uid loads sign mb event = Except.ok r) : isEnvelope r := by
  simp only [handlerBody] at h
  obtain ⟨hasBody, h1, h⟩ := except_bind_ok h
  obtain ⟨body, h2, h⟩ := except_bind_ok h
  obtain ⟨filename, h3, h⟩ := except_bind_ok h
  obtain ⟨content_type, h4, h⟩ := except_bind_ok h
  obtain ⟨file_size, h5, h⟩ := except_bind_ok h
  split at h
  · cases h
    exact isEnvelope_error_400 _
  · split at h
    · cases h
      exact isEnvelope_error_400 _
    · obtain ⟨oversize, h6, h⟩ := except_bind_ok h
      split at h
      · cases h
        exact isEnvelope_error_400 _
      · obtain ⟨safe, h7, h⟩ := except_bind_ok h
        obtain ⟨url, h8, h⟩ := except_bind_ok h
        cases h
        exact ⟨Or.inl rfl, rfl, fun hne => absurd rfl hne⟩

theorem handlerBody_checked (cfg : Config) (today : Date) (uid : String)
    (loads : String → Except PyErr JVal) (sign : SignParams → Except PyErr String)
    (mb : Int → String) (fs : List (String × JVal)) (fname ct : String) (sv : JVal)
    (hbody : (fs.any fun kv => kv.1 == "body") = false)
    (hfn : fieldsLookup fs "filename" = some (JVal.str fname))
    (hctf : fieldsLookup fs "contentType" = some (JVal.str ct))
    (hsv : (fieldsLookup fs "fileSize").getD (JVal.num 0) = sv)
    (hf : fname ≠ "")
    (hc : ct ≠ "")
    (hct : ct ∈ cfg.allowedFileTypes) :
    handlerBody cfg today uid loads sign mb (JVal.obj fs) =
      (pyGtInt sv cfg.maxFileSize).bind fun oversize =>
        if oversize then
          Except.ok (error_response 400
            ("File size exceeds maximum of " ++ mb cfg.maxFileSize ++ "MB"))
        else
          (sign { bucket := cfg.uploadBucket
                  key := build_file_key today uid (sanitize_filename fname)
                  contentType := JVal.str ct
                  serverSideEncryption := "aws:kms"
                  sseKmsKeyId := cfg.kmsKeyId
                  expiresIn := cfg.presignedUrlExpiry }).bind fun url =>
          Except.ok
            { statusCode := 200
              headers := stdHeaders
              body := JVal.obj
                [("uploadUrl", JVal.str url)
                , ("fileKey", JVal.str (build_file_key today uid (sanitize_filename fname)))
                , ("expiresIn", JVal.num cfg.presignedUrlExpiry)
                , ("message", JVal.str "Upload URL generated successfully")] } := by
  simp only [handlerBody, pyIn, hbody, Except.bind, dictGet, hfn, hctf, hsv, truthy,
    allowedType, hf, hc, hct, decide_True, decide_False, Bool.not_true, Bool.not_false,
    Bool.false_or, Bool.or_false, Option.getD_some, decide_not, Bool.not_not,
    Bool.false_eq_true, reduceIte]

theorem handlerBody_valid (cfg : Config) (today : Date) (uid : String)
    (loads : String → Except PyErr JVal) (sign : SignParams → Except PyErr String)
    (mb : Int → String) (fs : List (String × JVal)) (fname ct : String) (sv : JVal)
    (hbody : (fs.any fun kv => kv.1 == "body") = false)
    (hfn : fieldsLookup fs "filename" = some (JVal.str fname))
    (hctf : fieldsLookup fs "contentType" = some (JVal.str ct))
    (hsv : (fieldsLookup fs "fileSize").getD (JVal.num 0) = sv)
    (hf : fname ≠ "")
    (hc : ct ≠ "")
    (hct : ct ∈ cfg.allowedFileTypes)
    (hsz : pyGtInt sv cfg.maxFileSize = Except.ok false) :
    handlerBody cfg today uid loads sign mb (JVal.obj fs) =
      (sign { bucket := cfg.uploadBucket
              key := build_file_key today uid (sanitize_filename fname)
              contentType := JVal.str ct
              serverSideEncryption := "aws:kms"
              sseKmsKeyId := cfg.kmsKeyId
              expiresIn := cfg.presignedUrlExpiry }).bind fun url =>
      Except.ok
        { statusCode := 200
          headers := stdHeaders
          body := JVal.obj
            [("uploadUrl", JVal.str url)
            , ("fileKey", JVal.str (build_file_key today uid (sanitize_filename fname)))
            , ("expiresIn", JVal.num cfg.presignedUrlExpiry)
            , ("message", JVal.str "Upload URL generated successfully")] } := by
  rw [handlerBody_checked cfg today uid loads sign mb fs fname ct sv hbody hfn hctf hsv hf hc hct,
    hsz]
  simp only [Except.bind, Bool.false_eq_true, reduceIte]

theorem handlerBody_oversize (cfg : Config) (today : Date) (uid : String)
    (loads : String → Except PyErr JVal) (sign : SignParams → Except PyErr String)
    (mb : Int → String) (fs : List (String × JVal)) (fname ct : String) (sv : JVal)
    (hbody : (fs.any fun kv => kv.1 == "body") = false)
    (hfn : fieldsLookup fs "filename" = some (JVal.str fname))
    (hctf : fieldsLookup fs "contentType" = some (JVal.str ct))
    (hsv : (fieldsLookup fs "fileSize").getD (JVal.num 0) = sv)
    (hf : fname ≠ "")
    (hc : ct ≠ "")
    (hct : ct ∈ cfg.allowedFileTypes)
    (hsz : pyGtInt sv cfg.maxFileSize = Except.ok true) :
    handlerBody cfg today uid loads sign mb (JVal.obj fs) =
      Except.ok (error_response 400
        ("File size exceeds maximum of " ++ mb cfg.maxFileSize ++ "MB")) := by
  rw [handlerBody_checked cfg today uid loads sign mb fs fname ct sv hbody hfn hctf hsv hf hc hct,
    hsz]
  simp only [Except.bind, reduceIte]

/-- C8: for every invocation payload — and any behaviour of the external
parser and signer — the handler returns a structured envelope: one of the
status codes 200/400/500, the fixed header pair, and on failure a JSON body
with an `error` field.  No exception escapes the handler boundary. -/
theorem handler_always_envelope (cfg : Config) (today : Date) (uid : String)
    (loads : String → Except PyErr JVal) (sign : SignParams → Except PyErr String)
    (mb : Int → String) (event : JVal) :
    isEnvelope (lambda_handler cfg today uid loads sign mb event) := by
  cases hh : handlerBody cfg today uid loads sign mb event with
  | ok r =>
      simpa only [lambda_handler, hh] using handlerBody_ok_envelope hh
  | error e =>
      cases e <;> simp only [lambda_handler, hh] <;> exact isEnvelope_error_500 _

/-- C4 counterexample: with the empty string in the configured allow-list, a
request with a non-empty filename, the allow-listed content type `""` and an
in-bounds size is answered 400 (missing fields), not 200: membership in the
allow-list alone does not guarantee success. -/
theorem valid_request_cex :
    (("" ∈ cfgE.allowedFileTypes) ∧ ("a" : String) ≠ "" ∧ (0 : Int) ≤ cfgE.maxFileSize) ∧
    (lambda_handler cfgE d0 u0 loads0 sign0 mb0
        (JVal.obj [("filename", JVal.str "a"), ("contentType", JVal.str ""),
                   ("fileSize", JVal.num 0)])).statusCode = 400 := by
  decide

/-- C4 (amended: the content type must also be non-empty, since the
missing-field truthiness check rejects `""` before the allow-list is
consulted): for every request with a non-empty filename, a non-empty
allow-listed content type and a declared size within the limit, and a signer
that issues a URL for the built key, the handler returns status 200 whose
body carries the issued URL, the storage key and the configured expiry; the
key begins with the date partition and ends with the sanitized filename. -/
theorem valid_request_ok (cfg : Config) (today : Date) (uid : String)
    (loads : String → Except PyErr JVal) (sign : SignParams → Except PyErr String)
    (mb : Int → String) (fname ct url : String) (sz : Int)
    (hf : fname ≠ "") (hc : ct ≠ "") (hct : ct ∈ cfg.allowedFileTypes)
    (hsz : sz ≤ cfg.maxFileSize)
    (hsign : sign { bucket := cfg.uploadBucket
                    key := build_file_key today uid (sanitize_filename fname)
                    contentType := JVal.str ct
                    serverSideEncryption := "aws:kms"
                    sseKmsKeyId := cfg.kmsKeyId
                    expiresIn := cfg.presignedUrlExpiry } = Except.ok url) :
    lambda_handler cfg today uid loads sign mb
        (JVal.obj [("filename", JVal.str fname), ("contentType", JVal.str ct),
                   ("fileSize", JVal.num sz)]) =
      { statusCode := 200
        headers := stdHeaders
        body := JVal.obj
          [("uploadUrl", JVal.str url)
          , ("fileKey", JVal.str (build_file_key today uid (sanitize_filename fname)))
          , ("expiresIn", JVal.num cfg.presignedUrlExpiry)
          , ("message", JVal.str "Upload URL generated successfully")] } ∧
    (∃ rest, build_file_key today uid (sanitize_filename fname) =
        formatDate today ++ "/" ++ rest) ∧
    (∃ front, build_file_key today uid (sanitize_filename fname) =
        front ++ sanitize_filename fname) := by
  have hgt : pyGtInt (JVal.num sz) cfg.maxFileSize = Except.ok false := by
    have hnl : ¬(cfg.maxFileSize < sz) := not_lt.mpr hsz
    simp [pyGtInt, hnl]
  have hb := handlerBody_valid cfg today uid loads sign mb
    [("filename", JVal.str fname), ("contentType", JVal.str ct), ("fileSize", JVal.num sz)]
    fname ct (JVal.num sz) rfl rfl rfl rfl hf hc hct hgt
  refine ⟨?_, ⟨uid ++ "-" ++ sanitize_filename fname, ?_⟩,
    ⟨formatDate today ++ "/" ++ uid ++ "-", rfl⟩⟩
  · simp only [lambda_handler, hb, hsign, Except.bind]
  · simp [build_file_key, String.append_assoc]

/-- C9: when the signer raises a `ClientError` — whatever its message `m` —
on a request that reaches signing, the handler answers 500 with the fixed
text "Failed to generate upload URL"; the response is a constant, so the
issuer's raw error text never appears in it. -/
theorem issuer_error_masked (cfg : Config) (today : Date) (uid : String)
    (loads : String → Except PyErr JVal) (mb : Int → String)
    (fname ct m : String) (sz : Int)
    (hf : fname ≠ "") (hc : ct ≠ "") (hct : ct ∈ cfg.allowedFileTypes)
    (hsz : sz ≤ cfg.maxFileSize) :
    lambda_handler cfg today uid loads (fun _ => Except.error (PyErr.clientError m)) mb
        (JVal.obj [("filename", JVal.str fname), ("contentType", JVal.str ct),
                   ("fileSize", JVal.num sz)]) =
      error_response 500 "Failed to generate upload URL" := by
  have hgt : pyGtInt (JVal.num sz) cfg.maxFileSize = Except.ok false := by
    have hnl : ¬(cfg.maxFileSize < sz) := not_lt.mpr hsz
    simp [pyGtInt, hnl]
  have hb := handlerBody_valid cfg today uid loads
    (fun _ => Except.error (PyErr.clientError m)) mb
    [("filename", JVal.str fname), ("contentType", JVal.str ct), ("fileSize", JVal.num sz)]
    fname ct (JVal.num sz) rfl rfl rfl rfl hf hc hct hgt
  simp only [lambda_handler, hb, Except.bind]

/-- C3: for every input filename — traversal sequences included — the
sanitized filename contains no slash and no backslash, and the storage key
is the date partition, one separating slash, and a slash-free remainder
(which is not `..`), so the key cannot name anything outside the
`YYYY/MM/DD/` partition. -/
theorem sanitize_no_traversal (s : String) (today : Date) (uid : String)
    (hu : '/' ∉ uid.data) :
    '/' ∉ (sanitize_filename s).data ∧ '\\' ∉ (sanitize_filename s).data ∧
    ∃ tail, (build_file_key today uid (sanitize_filename s)).data =
        (formatDate today).data ++ '/' :: tail ∧ '/' ∉ tail ∧ tail ≠ "..".data := by
  have h1 : '/' ∉ (sanitize_filename s).data :=
    not_mem_sanitizeL (by decide) (by decide) s.data
  have h2 : '\\' ∉ (sanitize_filename s).data :=
    not_mem_sanitizeL (by decide) (by decide) s.data
  refine ⟨h1, h2, uid.data ++ '-' :: (sanitize_filename s).data, ?_, ?_, ?_⟩
  · simp [build_file_key, String.data_append]
  · intro h
    rcases List.mem_append.mp h with h3 | h3
    · exact hu h3
    · rcases List.mem_cons.mp h3 with h4 | h4
      · exact absurd h4 (by decide)
      · exact h1 h4
  · intro h
    have hm : '-' ∈ uid.data ++ '-' :: (sanitize_filename s).data :=
      List.mem_append.mpr (Or.inr (List.mem_cons_self _ _))
    rw [h] at hm
    exact absurd hm (by decide)

/-- C3 witness: the uuid4-shaped identifier has no slash, and the spec's own
example `../../etc/passwd` sanitizes to a separator-free name whose key
stays inside the date partition. -/
theorem sanitize_no_traversal_witness :
    '/' ∉ ("4b20cd0a-8d56-406e-b812-b8985fa60c01" : String).data ∧
    ('/' ∉ (sanitize_filename "../../etc/passwd").data ∧
     '\\' ∉ (sanitize_filename "../../etc/passwd").data ∧
     ∃ tail, (build_file_key d0 "4b20cd0a-8d56-406e-b812-b8985fa60c01"
         (sanitize_filename "../../etc/passwd")).data =
       (formatDate d0).data ++ '/' :: tail ∧ '/' ∉ tail ∧ tail ≠ "..".data) :=
  ⟨by decide, sanitize_no_traversal "../../etc/passwd" d0
    "4b20cd0a-8d56-406e-b812-b8985fa60c01" (by decide)⟩

/-- C6: the storage key embeds the per-call random identifier, and two keys
built for the same date and the same filename differ whenever the random
identifiers differ — uniqueness rests on the randomness source alone, not on
the filename. -/
theorem storage_keys_distinct (today : Date) (u1 u2 fname : String) (hne : u1 ≠ u2) :
    build_file_key today u1 (sanitize_filename fname) ≠
      build_file_key today u2 (sanitize_filename fname) := by
  intro h
  apply hne
  have hd := congrArg String.data h
  simp only [build_file_key, String.data_append] at hd
  exact String.ext
    (List.append_cancel_left (List.append_cancel_right (List.append_cancel_right hd)))

/-- C6 witness: two distinct uuid4 renderings give distinct keys for the
same date and filename. -/
theorem storage_keys_distinct_witness :
    ("123e4567-e89b-12d3-a456-426614174000" : String) ≠
      "ffffffff-ffff-4fff-bfff-ffffffffffff" ∧
    build_file_key d0 "123e4567-e89b-12d3-a456-426614174000"
        (sanitize_filename "report.pdf") ≠
      build_file_key d0 "ffffffff-ffff-4fff-bfff-ffffffffffff"
        (sanitize_filename "report.pdf") :=
  ⟨by decide, storage_keys_distinct d0 _ _ "report.pdf" (by decide)⟩

theorem handler_valid_status (cfg : Config) (today : Date) (uid : String)
    (loads : String → Except PyErr JVal) (sign : SignParams → Except PyErr String)
    (mb : Int → String) (fs : List (String × JVal)) (fname ct : String) (sv : JVal)
    (hbody : (fs.any fun kv => kv.1 == "body") = false)
    (hfn : fieldsLookup fs "filename" = some (JVal.str fname))
    (hctf : fieldsLookup fs "contentType" = some (JVal.str ct))
    (hsv : (fieldsLookup fs "fileSize").getD (JVal.num 0) = sv)
    (hf : fname ≠ "")
    (hc : ct ≠ "")
    (hct : ct ∈ cfg.allowedFileTypes)
    (hsz : pyGtInt sv cfg.maxFileSize = Except.ok false) :
    (lambda_handler cfg today uid loads sign mb (JVal.obj fs)).statusCode = 200 ∨
    (lambda_handler cfg today uid loads sign mb (JVal.obj fs)).statusCode = 500 := by
  have hb := handlerBody_valid cfg today uid loads sign mb fs fname ct sv
    hbody hfn hctf hsv hf hc hct hsz
  cases hs : sign { bucket := cfg.uploadBucket
                    key := build_file_key today uid (sanitize_filename fname)
                    contentType := JVal.str ct
                    serverSideEncryption := "aws:kms"
                    sseKmsKeyId := cfg.kmsKeyId
                    expiresIn := cfg.presignedUrlExpiry } with
  | ok url =>
      left
      simp only [lambda_handler, hb, hs, Except.bind]
  | error e =>
      right
      cases e <;> simp only [lambda_handler, hb, hs, Except.bind, error_response]

/-- C4 witness: a concrete valid request against `cfg0` with a succeeding
signer is answered 200 with the expected body. -/
theorem valid_request_ok_witness :
    (("report.pdf" : String) ≠ "" ∧ ("application/pdf" : String) ≠ "" ∧
     "application/pdf" ∈ cfg0.allowedFileTypes ∧ (5 : Int) ≤ cfg0.maxFileSize) ∧
    lambda_handler cfg0 d0 u0 loads0 sign0 mb0
        (JVal.obj [("filename", JVal.str "report.pdf"),
                   ("contentType", JVal.str "application/pdf"),
                   ("fileSize", JVal.num 5)]) =
      { statusCode := 200
        headers := stdHeaders
        body := JVal.obj
          [("uploadUrl", JVal.str "https://signed")
          , ("fileKey", JVal.str (build_file_key d0 u0 (sanitize_filename "report.pdf")))
          , ("expiresIn", JVal.num cfg0.presignedUrlExpiry)
          , ("message", JVal.str "Upload URL generated successfully")] } :=
  ⟨⟨by decide, by decide, by decide, by decide⟩,
   (valid_request_ok cfg0 d0 u0 loads0 sign0 mb0 "report.pdf" "application/pdf"
      "https://signed" 5 (by decide) (by decide) (by decide) (by decide) rfl).1⟩

/-- C9 witness: a concrete valid request whose signer raises a
`ClientError` is answered with the fixed 500 envelope. -/
theorem issuer_error_masked_witness :
    (("report.pdf" : String) ≠ "" ∧ ("application/pdf" : String) ≠ "" ∧
     "application/pdf" ∈ cfg0.allowedFileTypes ∧ (5 : Int) ≤ cfg0.maxFileSize) ∧
    lambda_handler cfg0 d0 u0 loads0
        (fun _ => Except.error (PyErr.clientError "aws says no")) mb0
        (JVal.obj [("filename", JVal.str "report.pdf"),
                   ("contentType", JVal.str "application/pdf"),
                   ("fileSize", JVal.num 5)]) =
      error_response 500 "Failed to generate upload URL" :=
  ⟨⟨by decide, by decide, by decide, by decide⟩,
   issuer_error_masked cfg0 d0 u0 loads0 mb0 "report.pdf" "application/pdf"
     "aws says no" 5 (by decide) (by decide) (by decide) (by decide)⟩

/-- C5: validation short-circuits in the fixed order on any extracted field
values: a falsy filename or content type is answered with the missing-fields
400 whatever the size value is; with both truthy, a content type outside the
allow-list is answered with the type 400 whatever the size value is; the
size 400 fires exactly when both earlier checks pass and the comparison
comes out true. -/
theorem validation_order (cfg : Config) (today : Date) (uid : String)
    (loads : String → Except PyErr JVal) (sign : SignParams → Except PyErr String)
    (mb : Int → String) (fv cv sv : JVal) :
    ((truthy fv = false ∨ truthy cv = false) →
      lambda_handler cfg today uid loads sign mb
          (JVal.obj [("filename", fv), ("contentType", cv), ("fileSize", sv)]) =
        error_response 400 "Missing required fields: filename and contentType") ∧
    (truthy fv = true → truthy cv = true → allowedType cfg cv = false →
      lambda_handler cfg today uid loads sign mb
          (JVal.obj [("filename", fv), ("contentType", cv), ("fileSize", sv)]) =
        error_response 400 ("File type " ++ pyStr cv ++ " is not allowed")) ∧
    (truthy fv = true → truthy cv = true → allowedType cfg cv = true →
      pyGtInt sv cfg.maxFileSize = Except.ok true →
      lambda_handler cfg today uid loads sign mb
          (JVal.obj [("filename", fv), ("contentType", cv), ("fileSize", sv)]) =
        error_response 400
          ("File size exceeds maximum of " ++ mb cfg.maxFileSize ++ "MB")) := by
  refine ⟨?_, ?_, ?_⟩
  · intro h
    rcases h with h | h <;>
      simp [lambda_handler, handlerBody, pyIn, dictGet, fieldsLookup, Except.bind, h]
  · intro h1 h2 h3
    simp [lambda_handler, handlerBody, pyIn, dictGet, fieldsLookup, Except.bind, h1, h2, h3]
  · intro h1 h2 h3 h4
    simp [lambda_handler, handlerBody, pyIn, dictGet, fieldsLookup, Except.bind, h1, h2, h3, h4]

/-- C5 witness: a request missing `filename` but carrying an allow-listed
type and an oversize `fileSize` still gets the missing-fields 400 — the
field check fires first. -/
theorem validation_order_witness :
    (truthy JVal.null = false ∨ truthy (JVal.str "application/pdf") = false) ∧
    lambda_handler cfg0 d0 u0 loads0 sign0 mb0
        (JVal.obj [("filename", JVal.null), ("contentType", JVal.str "application/pdf"),
                   ("fileSize", JVal.num 99999)]) =
      error_response 400 "Missing required fields: filename and contentType" :=
  ⟨by decide,
   (validation_order cfg0 d0 u0 loads0 sign0 mb0 JVal.null
      (JVal.str "application/pdf") (JVal.num 99999)).1 (by decide)⟩

/-- C7 counterexample: a request whose declared size exceeds the limit but
whose content type is not allow-listed is answered with the type error, not
with the size error — so "fails with SizeExceeded iff size exceeds the
limit" is false as an unconditional equivalence. -/
theorem size_iff_cex :
    (cfg0.maxFileSize < 11) ∧
    lambda_handler cfg0 d0 u0 loads0 sign0 mb0
        (JVal.obj [("filename", JVal.str "a"), ("contentType", JVal.str "bad"),
                   ("fileSize", JVal.num 11)]) =
      error_response 400 "File type bad is not allowed" ∧
    lambda_handler cfg0 d0 u0 loads0 sign0 mb0
        (JVal.obj [("filename", JVal.str "a"), ("contentType", JVal.str "bad"),
                   ("fileSize", JVal.num 11)]) ≠
      error_response 400
        ("File size exceeds maximum of " ++ mb0 cfg0.maxFileSize ++ "MB") := by
  decide

/-- C7 (amended: among requests that pass the field and type checks, and
with the configured limit nonnegative): the handler answers the SizeExceeded
400 — whose message carries the configured limit — exactly when the declared
size exceeds `maxFileSize`; and a request with no `fileSize` field defaults
to 0 and is never answered with any 400. -/
theorem size_check_iff (cfg : Config) (today : Date) (uid : String)
    (loads : String → Except PyErr JVal) (sign : SignParams → Except PyErr String)
    (mb : Int → String) (fname ct : String) (sz : Int)
    (hf : fname ≠ "") (hc : ct ≠ "") (hct : ct ∈ cfg.allowedFileTypes)
    (hmax : 0 ≤ cfg.maxFileSize) :
    (lambda_handler cfg today uid loads sign mb
        (JVal.obj [("filename", JVal.str fname), ("contentType", JVal.str ct),
                   ("fileSize", JVal.num sz)]) =
       error_response 400
         ("File size exceeds maximum of " ++ mb cfg.maxFileSize ++ "MB")
     ↔ cfg.maxFileSize < sz) ∧
    (lambda_handler cfg today uid loads sign mb
        (JVal.obj [("filename", JVal.str fname),
                   ("contentType", JVal.str ct)])).statusCode ≠ 400 := by
  constructor
  · constructor
    · intro h
      by_cases hlt : cfg.maxFileSize < sz
      · exact hlt
      · exfalso
        have hgt : pyGtInt (JVal.num sz) cfg.maxFileSize = Except.ok false := by
          simp [pyGtInt, hlt]
        rcases handler_valid_status cfg today uid loads sign mb
            [("filename", JVal.str fname), ("contentType", JVal.str ct),
             ("fileSize", JVal.num sz)]
            fname ct (JVal.num sz) rfl rfl rfl rfl hf hc hct hgt with h2 | h2 <;>
          · rw [h] at h2
            simp [error_response] at h2
    · intro hlt
      have hgt : pyGtInt (JVal.num sz) cfg.maxFileSize = Except.ok true := by
        simp [pyGtInt, hlt]
      have hb := handlerBody_oversize cfg today uid loads sign mb
        [("filename", JVal.str fname), ("contentType", JVal.str ct),
         ("fileSize", JVal.num sz)]
        fname ct (JVal.num sz) rfl rfl rfl rfl hf hc hct hgt
      simp only [lambda_handler, hb]
  · have hgt : pyGtInt (JVal.num 0) cfg.maxFileSize = Except.ok false := by
      have hnl : ¬(cfg.maxFileSize < 0) := not_lt.mpr hmax
      simp [pyGtInt, hnl]
    rcases handler_valid_status cfg today uid loads sign mb
        [("filename", JVal.str fname), ("contentType", JVal.str ct)]
        fname ct (JVal.num 0) rfl rfl rfl rfl hf hc hct hgt with h2 | h2 <;>
      · rw [h2]
        decide

/-- C7 witness: against `cfg0`, a valid request declaring 11 bytes satisfies
the equivalence (11 exceeds the limit of 10), and the sizeless request is
not answered 400. -/
theorem size_check_iff_witness :
    (("a" : String) ≠ "" ∧ ("application/pdf" : String) ≠ "" ∧
     "application/pdf" ∈ cfg0.allowedFileTypes ∧ (0 : Int) ≤ cfg0.maxFileSize) ∧
    ((lambda_handler cfg0 d0 u0 loads0 sign0 mb0
        (JVal.obj [("filename", JVal.str "a"), ("contentType", JVal.str "application/pdf"),
                   ("fileSize", JVal.num 11)]) =
       error_response 400
         ("File size exceeds maximum of " ++ mb0 cfg0.maxFileSize ++ "MB")
     ↔ cfg0.maxFileSize < 11) ∧
    (lambda_handler cfg0 d0 u0 loads0 sign0 mb0
        (JVal.obj [("filename", JVal.str "a"),
                   ("contentType", JVal.str "application/pdf")])).statusCode ≠ 400) :=
  ⟨⟨by decide, by decide, by decide, by decide⟩,
   size_check_iff cfg0 d0 u0 loads0 sign0 mb0 "a" "application/pdf" 11
     (by decide) (by decide) (by decide) (by decide)⟩

/-- C1 counterexample: an event whose `body` is a string that fails JSON
parsing is answered 500, not 400 — the parse error falls through to the
generic `except Exception` branch. -/
theorem malformed_body_cex :
    loads0 "not json" = Except.error PyErr.jsonDecodeError ∧
    (lambda_handler cfg0 d0 u0 loads0 sign0 mb0
        (JVal.obj [("body", JVal.str "not json")])).statusCode = 500 ∧
    (lambda_handler cfg0 d0 u0 loads0 sign0 mb0
        (JVal.obj [("body", JVal.str "not json")])).statusCode ≠ 400 :=
  ⟨rfl, by decide, by decide⟩

/-- C1 (amended: the unparseable payload is reported through the catch-all
branch as 500 "Internal server error", not as a 400 client error): whenever
`json.loads` fails on the `body` string, the handler returns that fixed 500
envelope. -/
theorem malformed_body_500 (cfg : Config) (today : Date) (uid : String)
    (loads : String → Except PyErr JVal) (sign : SignParams → Except PyErr String)
    (mb : Int → String) (s : String)
    (h : loads s = Except.error PyErr.jsonDecodeError) :
    lambda_handler cfg today uid loads sign mb (JVal.obj [("body", JVal.str s)]) =
      error_response 500 "Internal server error" := by
  simp [lambda_handler, handlerBody, pyIn, getItem, fieldsLookup, Except.bind, h]

/-- C1 witness: the amended claim evaluated on a concrete unparseable
body. -/
theorem malformed_body_500_witness :
    loads0 "not json" = Except.error PyErr.jsonDecodeError ∧
    lambda_handler cfg0 d0 u0 loads0 sign0 mb0
        (JVal.obj [("body", JVal.str "not json")]) =
      error_response 500 "Internal server error" :=
  ⟨rfl, malformed_body_500 cfg0 d0 u0 loads0 sign0 mb0 "not json" rfl⟩

/-- C10 counterexample: a request whose `fileSize` is the string `"10"` but
whose `filename` is missing is answered 400 (missing fields), not 500 — the
ill-typed size is not universally reported as a server failure. -/
theorem illtyped_size_cex :
    lambda_handler cfg0 d0 u0 loads0 sign0 mb0
        (JVal.obj [("fileSize", JVal.str "10")]) =
      error_response 400 "Missing required fields: filename and contentType" ∧
    (lambda_handler cfg0 d0 u0 loads0 sign0 mb0
        (JVal.obj [("fileSize", JVal.str "10")])).statusCode ≠ 500 := by
  decide

/-- C10 (amended: for requests that pass the field and type checks): a
`fileSize` that is neither a number nor a boolean makes the `>` comparison
raise `TypeError`, and the handler answers 500 "Internal server error"
rather than any 400 validation error. -/
theorem illtyped_size_500 (cfg : Config) (today : Date) (uid : String)
    (loads : String → Except PyErr JVal) (sign : SignParams → Except PyErr String)
    (mb : Int → String) (fname ct : String) (v : JVal)
    (hf : fname ≠ "") (hc : ct ≠ "") (hct : ct ∈ cfg.allowedFileTypes)
    (hnum : ∀ n, v ≠ JVal.num n) (hbool : ∀ b, v ≠ JVal.bool b) :
    lambda_handler cfg today uid loads sign mb
        (JVal.obj [("filename", JVal.str fname), ("contentType", JVal.str ct),
                   ("fileSize", v)]) =
      error_response 500 "Internal server error" := by
  have hgt : pyGtInt v cfg.maxFileSize = Except.error PyErr.typeError := by
    cases v with
    | num n => exact absurd rfl (hnum n)
    | bool b => exact absurd rfl (hbool b)
    | null => rfl
    | str s => rfl
    | arr xs => rfl
    | obj fs => rfl
  have hb := handlerBody_checked cfg today uid loads sign mb
    [("filename", JVal.str fname), ("contentType", JVal.str ct), ("fileSize", v)]
    fname ct v rfl rfl rfl rfl hf hc hct
  simp only [lambda_handler, hb, hgt, Except.bind]

/-- C10 witness: the amended claim on a concrete request with
`fileSize = "ten"`. -/
theorem illtyped_size_500_witness :
    (("a" : String) ≠ "" ∧ ("application/pdf" : String) ≠ "" ∧
     "application/pdf" ∈ cfg0.allowedFileTypes ∧
     (∀ n, JVal.str "ten" ≠ JVal.num n) ∧ (∀ b, JVal.str "ten" ≠ JVal.bool b)) ∧
    lambda_handler cfg0 d0 u0 loads0 sign0 mb0
        (JVal.obj [("filename", JVal.str "a"), ("contentType", JVal.str "application/pdf"),
                   ("fileSize", JVal.str "ten")]) =
      error_response 500 "Internal server error" :=
  ⟨⟨by decide, by decide, by decide,
    ⟨fun _ h => JVal.noConfusion h, fun _ h => JVal.noConfusion h⟩⟩,
   illtyped_size_500 cfg0 d0 u0 loads0 sign0 mb0 "a" "application/pdf" (JVal.str "ten")
     (by decide) (by decide) (by decide)
     (fun _ h => JVal.noConfusion h) (fun _ h => JVal.noConfusion h)⟩

set_option maxRecDepth 10000 in
/-- C2 counterexample: a filename whose extension (as `splitext` finds it)
is 251 characters long sanitizes to a 251-character name — the 200-character
bound fails. -/
theorem sanitize_length_cex :
    ¬((sanitize_filename (String.mk ('a' :: '.' :: List.replicate 250 'b'))).length ≤ 200) := by
  decide

/-- C2 (amended: the 200-character bound holds whenever the extension found
by `splitext` is itself at most 200 characters; the cut is always taken from
the stem and the extension re-appended unchanged, but an over-long extension
is re-appended whole, exceeding the bound): truncation bound and extension
preservation for `sanitize_filename`. -/
theorem sanitize_length_le (s : String)
    (h : (splitextL (replaceDangerousL (basenameL s.data))).2.length ≤ 200) :
    (sanitize_filename s).length ≤ 200 ∧
    ∃ stemCut,
      stemCut <+: (splitextL (replaceDangerousL (basenameL s.data))).1 ∧
      (sanitize_filename s).data =
        stemCut ++ (splitextL (replaceDangerousL (basenameL s.data))).2 := by
  have hsplit := splitextL_append (replaceDangerousL (basenameL s.data))
  by_cases hlen : 200 < (replaceDangerousL (basenameL s.data)).length
  · have hk : (0 : Int) ≤
        (200 : Int) - ((splitextL (replaceDangerousL (basenameL s.data))).2.length : Int) := by
      omega
    have heq : sanitizeL s.data =
        List.take
            ((200 : Int) -
              ((splitextL (replaceDangerousL (basenameL s.data))).2.length : Int)).toNat
            (splitextL (replaceDangerousL (basenameL s.data))).1 ++
          (splitextL (replaceDangerousL (basenameL s.data))).2 := by
      simp only [sanitizeL, pyTake, if_pos hlen, if_pos hk]
    refine ⟨?_, _, List.take_prefix _ _, heq⟩
    show (sanitizeL s.data).length ≤ 200
    rw [heq]
    simp only [List.length_append, List.length_take]
    omega
  · have heq : sanitizeL s.data = replaceDangerousL (basenameL s.data) := by
      simp only [sanitizeL, if_neg hlen]
    refine ⟨?_, (splitextL (replaceDangerousL (basenameL s.data))).1, List.prefix_refl _, ?_⟩
    · show (sanitizeL s.data).length ≤ 200
      rw [heq]
      omega
    · show sanitizeL s.data =
        (splitextL (replaceDangerousL (basenameL s.data))).1 ++
          (splitextL (replaceDangerousL (basenameL s.data))).2
      rw [heq, hsplit]

set_option maxRecDepth 10000 in
/-- C2 witness: the spec's own example — a 500-character stem with a
10-character extension — sanitizes to at most 200 characters with the
extension re-appended after a stem cut. -/
theorem sanitize_length_le_witness :
    ((splitextL (replaceDangerousL (basenameL
        (String.mk (List.replicate 500 'a' ++ '.' :: List.replicate 9 'x')).data))).2.length ≤ 200) ∧
    ((sanitize_filename
        (String.mk (List.replicate 500 'a' ++ '.' :: List.replicate 9 'x'))).length ≤ 200 ∧
     ∃ stemCut,
       stemCut <+: (splitextL (replaceDangerousL (basenameL
           (String.mk (List.replicate 500 'a' ++ '.' :: List.replicate 9 'x')).data))).1 ∧
       (sanitize_filename
           (String.mk (List.replicate 500 'a' ++ '.' :: List.replicate 9 'x'))).data =
         stemCut ++ (splitextL (replaceDangerousL (basenameL
             (String.mk (List.replicate 500 'a' ++ '.' :: List.replicate 9 'x')).data))).2) :=
  ⟨by decide, sanitize_length_le _ (by decide)⟩
